import Mathlib

/-!
Shallow embedding of `get_compound_info2.py`, a single-shot command-line
tool that resolves a compound name through four sequential HTTP requests
against the PubChem PUG REST service and prints one tab-delimited line
`CAS\tIUPAC\tSMILES` (or the fallback `Not found\tNot found\tNot found`).

The remote service is modelled as an environment `Env`: a function from
request URL to the outcome of `requests.get` on that URL — either a raised
transport exception (`requests.exceptions.RequestException`: connection
failure, timeout, ...) or a delivered `Response` carrying an HTTP status,
the body text, and the result of attempting to parse the body as JSON
(`none` models a `.json()` call that raises).  Python exceptions are
modelled with `Except PyErr`; the `try:` block of `get_compound_info`
becomes `tryBody`, which also records the list of request URLs issued, in
order, so that claims about which requests are (not) made can be stated.
-/

/-- JSON values, the shapes `response.json()` can return. -/
inductive Json where
  | num (n : Int)
  | str (s : String)
  | arr (elems : List Json)
  | obj (fields : List (String × Json))

/-- Python exceptions relevant to the script: `requests.exceptions.RequestException`
(and its subclasses: timeouts, connection errors, `HTTPError` from
`raise_for_status`, JSON decode errors) versus any other `Exception`
(`KeyError`, `IndexError`, `TypeError`, `AttributeError`).  The script
catches both classes and maps both to the same fallback string. -/
inductive PyErr where
  | requestError (msg : String)
  | otherError (msg : String)

/-- A delivered HTTP response: status code, body text, and the result of
parsing the body as JSON (`none` when `.json()` would raise). -/
structure Response where
  status : Nat
  text : String
  json : Option Json

/-- Outcome of one `requests.get` call: a raised transport exception, or a
delivered response. -/
inductive ReqOutcome where
  | exn (msg : String)
  | resp (r : Response)

/-- The behaviour of the remote endpoints: what `requests.get` does on each URL. -/
def Env : Type := String → ReqOutcome

mutual

/-- Python `repr()` of a JSON value: the rendering used for elements inside
lists and dictionaries when a value is interpolated into an f-string. -/
def pyRepr : Json → String
  | .num n => toString n
  | .str s => "'" ++ s ++ "'"
  | .arr xs => "[" ++ String.intercalate ", " (pyReprList xs) ++ "]"
  | .obj kvs => "\x7b" ++ String.intercalate ", " (pyReprFields kvs) ++ "\x7d"

def pyReprList : List Json → List String
  | [] => []
  | j :: js => pyRepr j :: pyReprList js

def pyReprFields : List (String × Json) → List String
  | [] => []
  | (k, v) :: kvs => ("'" ++ k ++ "': " ++ pyRepr v) :: pyReprFields kvs

end

/-- Python `str()` as applied by an f-string: identity on strings, decimal
rendering of integers, `repr`-style rendering inside containers. -/
def pyStr : Json → String
  | .num n => toString n
  | .str s => s
  | .arr xs => pyRepr (.arr xs)
  | .obj kvs => pyRepr (.obj kvs)

/-- Python `s.strip()`: removes leading and trailing whitespace. -/
def pyStrip (s : String) : String :=
  String.mk (((s.data.dropWhile Char.isWhitespace).reverse.dropWhile
    Char.isWhitespace).reverse)

/-- Python `s.replace('-', '')`: deletes every hyphen of `s`. -/
def removeHyphens (s : String) : String :=
  String.mk (s.data.filter (fun c => c ≠ '-'))

/-- Python `str.isdigit`: true iff the string is non-empty and every
character is a digit. -/
def pyIsDigit (s : String) : Bool :=
  !s.data.isEmpty && s.data.all Char.isDigit

/-- Python subscription `d[k]` with a string key: dictionary lookup
(`KeyError` when absent), `TypeError` on non-dictionaries. -/
def pyGetItemStr : Json → String → Except PyErr Json
  | .obj kvs, k =>
    match kvs.lookup k with
    | some v => .ok v
    | none => .error (.otherError ("KeyError: " ++ k))
  | _, _ => .error (.otherError "TypeError")

/-- Python subscription `x[i]` with integer index `i ≥ 0`: list indexing
(`IndexError` out of range), string indexing (one-character string),
`KeyError` on dictionaries with string keys, `TypeError` on numbers. -/
def pyGetItemNat : Json → Nat → Except PyErr Json
  | .arr xs, i =>
    match xs.get? i with
    | some v => .ok v
    | none => .error (.otherError "IndexError")
  | .str s, i =>
    match s.data.get? i with
    | some c => .ok (.str (String.mk [c]))
    | none => .error (.otherError "IndexError")
  | .obj _, _ => .error (.otherError "KeyError")
  | .num _, _ => .error (.otherError "TypeError")

/-- `response.raise_for_status()`: raises `requests.exceptions.HTTPError`
(a `RequestException`) exactly when the status code is 4xx or 5xx. -/
def raiseForStatus (r : Response) : Except PyErr Unit :=
  if 400 ≤ r.status ∧ r.status < 600 then
    .error (.requestError "HTTPError")
  else
    .ok ()

/-- `response.json()`: the parsed body, or a raised decode error (a
`RequestException` subclass in the requests library). -/
def Response.jsonE (r : Response) : Except PyErr Json :=
  match r.json with
  | some j => .ok j
  | none => .error (.requestError "JSONDecodeError")

/-- Python iteration `for s in x`: lists yield their elements, strings
their characters, dictionaries their keys; numbers raise `TypeError`. -/
def pyIter : Json → Except PyErr (List Json)
  | .arr xs => .ok xs
  | .str s => .ok (s.data.map (fun c => .str (String.mk [c])))
  | .obj kvs => .ok (kvs.map (fun kv => .str kv.1))
  | .num _ => .error (.otherError "TypeError")

/-- `next((s for s in synonyms if s.replace('-', '').isdigit()), 'Not found')`:
scan the synonyms in order; the first string whose hyphen-free content is
all digits is returned; a non-string element reached before any match
raises `AttributeError` (no `.replace` attribute); an exhausted scan
yields the default `'Not found'`. -/
def findCas : List Json → Except PyErr String
  | [] => .ok "Not found"
  | .str s :: rest =>
    if pyIsDigit (removeHyphens s) then .ok s else findCas rest
  | _ :: _ => .error (.otherError "AttributeError")

/-- `data['IdentifierList']['CID'][0]`. -/
def extractCid (data : Json) : Except PyErr Json :=
  ((pyGetItemStr data "IdentifierList").bind
    (fun x => pyGetItemStr x "CID")).bind
    (fun x => pyGetItemNat x 0)

/-- `response.json()['InformationList']['Information'][0]['Synonym']`. -/
def extractSynonyms (data : Json) : Except PyErr Json :=
  (((pyGetItemStr data "InformationList").bind
    (fun x => pyGetItemStr x "Information")).bind
    (fun x => pyGetItemNat x 0)).bind
    (fun x => pyGetItemStr x "Synonym")

def base_url : String := "https://pubchem.ncbi.nlm.nih.gov/rest/pug"

/-- `f'{base_url}/compound/name/{compound_name}/cids/JSON'`. -/
def cid_url (compound_name : String) : String :=
  base_url ++ "/compound/name/" ++ compound_name ++ "/cids/JSON"

/-- `f'{base_url}/compound/cid/{cid}/synonyms/JSON'`. -/
def synonyms_url (cid : Json) : String :=
  base_url ++ "/compound/cid/" ++ pyStr cid ++ "/synonyms/JSON"

/-- `f'{base_url}/compound/cid/{cid}/property/IUPACName/TXT'`. -/
def iupac_url (cid : Json) : String :=
  base_url ++ "/compound/cid/" ++ pyStr cid ++ "/property/IUPACName/TXT"

/-- `f'{base_url}/compound/cid/{cid}/property/IsomericSMILES/TXT'`. -/
def smiles_url (cid : Json) : String :=
  base_url ++ "/compound/cid/" ++ pyStr cid ++ "/property/IsomericSMILES/TXT"

/-- The body of the `try:` block of `get_compound_info`, step by step, with
the list of request URLs issued so far recorded alongside the outcome.
A raised exception (`.error`) aborts the remaining steps. -/
def tryBody (env : Env) (compound_name : String) :
    Except PyErr String × List String :=
  match env (cid_url compound_name) with
  | .exn m => (.error (.requestError m), [cid_url compound_name])
  | .resp response1 =>
    match raiseForStatus response1 with
    | .error e => (.error e, [cid_url compound_name])
    | .ok _ =>
      match response1.jsonE with
      | .error e => (.error e, [cid_url compound_name])
      | .ok data =>
        match extractCid data with
        | .error e => (.error e, [cid_url compound_name])
        | .ok cid =>
          match env (synonyms_url cid) with
          | .exn m =>
            (.error (.requestError m),
             [cid_url compound_name, synonyms_url cid])
          | .resp response2 =>
            match raiseForStatus response2 with
            | .error e =>
              (.error e, [cid_url compound_name, synonyms_url cid])
            | .ok _ =>
              match response2.jsonE with
              | .error e =>
                (.error e, [cid_url compound_name, synonyms_url cid])
              | .ok sdata =>
                match extractSynonyms sdata with
                | .error e =>
                  (.error e, [cid_url compound_name, synonyms_url cid])
                | .ok synJson =>
                  match pyIter synJson with
                  | .error e =>
                    (.error e, [cid_url compound_name, synonyms_url cid])
                  | .ok synonyms =>
                    match findCas synonyms with
                    | .error e =>
                      (.error e, [cid_url compound_name, synonyms_url cid])
                    | .ok cas =>
                      match env (iupac_url cid) with
                      | .exn m =>
                        (.error (.requestError m),
                         [cid_url compound_name, synonyms_url cid,
                          iupac_url cid])
                      | .resp response3 =>
                        match env (smiles_url cid) with
                        | .exn m =>
                          (.error (.requestError m),
                           [cid_url compound_name, synonyms_url cid,
                            iupac_url cid, smiles_url cid])
                        | .resp response4 =>
                          (.ok (cas ++ "\t" ++ pyStrip response3.text ++ "\t"
                                ++ pyStrip response4.text),
                           [cid_url compound_name, synonyms_url cid,
                            iupac_url cid, smiles_url cid])

/-- The uniform fallback returned on every caught exception. -/
def notFoundTriple : String := "Not found\tNot found\tNot found"

/-- Result of one call to `get_compound_info`: the returned string (the
function always returns one) and the request URLs issued, in order. -/
structure RunResult where
  output : String
  requests : List String

/-- `get_compound_info(compound_name)` under endpoint behaviour `env`: the
`try:` body, with both `except` clauses collapsing any raised exception to
the fallback triple. -/
def get_compound_info (env : Env) (compound_name : String) : RunResult :=
  match tryBody env compound_name with
  | (.ok s, reqs) => ⟨s, reqs⟩
  | (.error _, reqs) => ⟨notFoundTriple, reqs⟩

/-- Observable result of running the script: lines printed to standard
output (one entry per `print` call), exit code, and requests issued. -/
structure MainResult where
  stdout : List String
  exitCode : Nat
  requests : List String

/-- The `if __name__ == "__main__":` block: `sys.argv` has the script name
first; with no further argument print the usage line and exit 1, otherwise
print `get_compound_info(sys.argv[1])` and fall off the end (exit 0). -/
def mainRun (env : Env) (argv : List String) : MainResult :=
  match argv with
  | _ :: name :: _ =>
    let r := get_compound_info env name
    ⟨[r.output], 0, r.requests⟩
  | _ => ⟨["Usage: python get_compound_info2.py <compound_name>"], 1, []⟩

/-! Observation helpers for stating claims about the printed line. -/

/-- The tab-separated fields of a line. -/
def tabFields (s : String) : List String :=
  (s.data.splitOn '\t').map String.mk

/-- The first tab-separated field of a line. -/
def firstField (s : String) : String :=
  String.mk (s.data.takeWhile (fun c => c ≠ '\t'))

/-! Concrete endpoint behaviours used to instantiate the theorems. -/

/-- Environment built from a finite URL table; unlisted URLs raise a
connection error. -/
def envTable (table : List (String × ReqOutcome)) : Env :=
  fun u =>
    match table.lookup u with
    | some o => o
    | none => .exn "ConnectionError"

/-- Endpoint-1 JSON fixture: `{"IdentifierList": {"CID": [702]}}`. -/
def cidJson : Json := .obj [("IdentifierList", .obj [("CID", .arr [.num 702])])]

/-- Endpoint-2 JSON fixture whose synonym list contains a CAS-shaped entry. -/
def synJsonCas : Json :=
  .obj [("InformationList", .obj [("Information",
    .arr [.obj [("Synonym", .arr [.str "Ethanol", .str "64-17-5"])]])])]

/-- Endpoint-2 JSON fixture whose synonym list has no digits-and-hyphens entry. -/
def synJsonNoCas : Json :=
  .obj [("InformationList", .obj [("Information",
    .arr [.obj [("Synonym", .arr [.str "Ethanol", .str "alcohol"])]])])]

/-- All four endpoints succeed with 2xx statuses and clean bodies. -/
def envGood : Env := envTable
  [(cid_url "ethanol", .resp ⟨200, "", some cidJson⟩),
   (synonyms_url (.num 702), .resp ⟨200, "", some synJsonCas⟩),
   (iupac_url (.num 702), .resp ⟨200, "ethanol\n", none⟩),
   (smiles_url (.num 702), .resp ⟨200, "CCO\n", none⟩)]

/-- Every request raises a timeout. -/
def envTimeout : Env := fun _ => .exn "Timeout"

/-- Endpoints 1 and 2 succeed; endpoint 3 delivers a 404 with an error body
(no exception is raised, since its status is never checked); endpoint 4
succeeds. -/
def envStatus404on3 : Env := envTable
  [(cid_url "ethanol", .resp ⟨200, "", some cidJson⟩),
   (synonyms_url (.num 702), .resp ⟨200, "", some synJsonCas⟩),
   (iupac_url (.num 702), .resp ⟨404, "PUGREST.NotFound", none⟩),
   (smiles_url (.num 702), .resp ⟨200, "CCO\n", none⟩)]

/-- Endpoints 1 and 2 succeed; the request to endpoint 3 raises a timeout. -/
def envTimeoutOn3 : Env := envTable
  [(cid_url "ethanol", .resp ⟨200, "", some cidJson⟩),
   (synonyms_url (.num 702), .resp ⟨200, "", some synJsonCas⟩)]

/-- All four endpoints succeed, but endpoint 3's body is whitespace only,
so its stripped value is the empty string. -/
def envEmptyBody3 : Env := envTable
  [(cid_url "ethanol", .resp ⟨200, "", some cidJson⟩),
   (synonyms_url (.num 702), .resp ⟨200, "", some synJsonCas⟩),
   (iupac_url (.num 702), .resp ⟨200, "  \n", none⟩),
   (smiles_url (.num 702), .resp ⟨200, "CCO\n", none⟩)]

/-- All four endpoints succeed, but endpoint 3's body contains an interior
tab and an interior newline. -/
def envTabBody3 : Env := envTable
  [(cid_url "ethanol", .resp ⟨200, "", some cidJson⟩),
   (synonyms_url (.num 702), .resp ⟨200, "", some synJsonCas⟩),
   (iupac_url (.num 702), .resp ⟨200, "X\tY\nZ", none⟩),
   (smiles_url (.num 702), .resp ⟨200, "CCO\n", none⟩)]

/-- All four endpoints succeed, no synonym matches the CAS pattern, and the
bodies of endpoints 3 and 4 both strip to the literal text `Not found`. -/
def envNotFoundBodies : Env := envTable
  [(cid_url "ethanol", .resp ⟨200, "", some cidJson⟩),
   (synonyms_url (.num 702), .resp ⟨200, "", some synJsonNoCas⟩),
   (iupac_url (.num 702), .resp ⟨200, "Not found", none⟩),
   (smiles_url (.num 702), .resp ⟨200, "Not found", none⟩)]

/-- Endpoint 1 delivers a 2xx response whose body is not valid JSON. -/
def envBadJson1 : Env := envTable
  [(cid_url "ethanol", .resp ⟨200, "<html>busy</html>", none⟩)]

/-- No-match synonym list but otherwise fully successful endpoints. -/
def envNoCas : Env := envTable
  [(cid_url "ethanol", .resp ⟨200, "", some cidJson⟩),
   (synonyms_url (.num 702), .resp ⟨200, "", some synJsonNoCas⟩),
   (iupac_url (.num 702), .resp ⟨200, "ethanol\n", none⟩),
   (smiles_url (.num 702), .resp ⟨200, "CCO\n", none⟩)]

theorem tryBody_success (env : Env) (name : String) (st1 st2 : Nat)
    (b1 b2 : String) (j1 j2 cid synJson : Json) (syns : List Json)
    (cas : String) (r3 r4 : Response)
    (h1 : env (cid_url name) = .resp ⟨st1, b1, some j1⟩)
    (hst1 : ¬ (400 ≤ st1 ∧ st1 < 600))
    (hcid : extractCid j1 = .ok cid)
    (h2 : env (synonyms_url cid) = .resp ⟨st2, b2, some j2⟩)
    (hst2 : ¬ (400 ≤ st2 ∧ st2 < 600))
    (hsyn : extractSynonyms j2 = .ok synJson)
    (hit : pyIter synJson = .ok syns)
    (hcas : findCas syns = .ok cas)
    (h3 : env (iupac_url cid) = .resp r3)
    (h4 : env (smiles_url cid) = .resp r4) :
    tryBody env name =
      (.ok (cas ++ "\t" ++ pyStrip r3.text ++ "\t" ++ pyStrip r4.text),
       [cid_url name, synonyms_url cid, iupac_url cid, smiles_url cid]) := by
  simp [tryBody, h1, h2, h3, h4, raiseForStatus, Response.jsonE, hst1, hst2,
    hcid, hsyn, hit, hcas]

theorem tryBody_snd_head (env : Env) (name : String) :
    ∃ rest, (tryBody env name).2 = cid_url name :: rest := by
  unfold tryBody
  repeat' split
  all_goals exact ⟨_, rfl⟩

theorem tryBody_shape (env : Env) (name : String) :
    (∃ e tr, tryBody env name = (.error e, tr)) ∨
    ∃ (syns : List Json) (cas : String) (r3 r4 : Response) (tr : List String),
      findCas syns = .ok cas ∧
      tryBody env name =
        (.ok (cas ++ "\t" ++ pyStrip r3.text ++ "\t" ++ pyStrip r4.text), tr) := by
  unfold tryBody
  repeat' split
  all_goals try (left; exact ⟨_, _, rfl⟩)
  all_goals right; exact ⟨_, _, _, _, _, by assumption, rfl⟩

theorem tryBody_exn34 (env : Env) (name : String) (st1 st2 : Nat)
    (b1 b2 : String) (j1 j2 cid synJson : Json) (syns : List Json)
    (cas m : String)
    (h1 : env (cid_url name) = .resp ⟨st1, b1, some j1⟩)
    (hst1 : ¬ (400 ≤ st1 ∧ st1 < 600))
    (hcid : extractCid j1 = .ok cid)
    (h2 : env (synonyms_url cid) = .resp ⟨st2, b2, some j2⟩)
    (hst2 : ¬ (400 ≤ st2 ∧ st2 < 600))
    (hsyn : extractSynonyms j2 = .ok synJson)
    (hit : pyIter synJson = .ok syns)
    (hcas : findCas syns = .ok cas)
    (h34 : env (iupac_url cid) = .exn m ∨
      (∃ r3 : Response, env (iupac_url cid) = .resp r3 ∧
        env (smiles_url cid) = .exn m)) :
    (tryBody env name).1 = .error (.requestError m) := by
  rcases h34 with h3 | ⟨r3, h3, h4⟩
  · simp [tryBody, h1, h2, h3, raiseForStatus, Response.jsonE, hst1, hst2,
      hcid, hsyn, hit, hcas]
  · simp [tryBody, h1, h2, h3, h4, raiseForStatus, Response.jsonE, hst1,
      hst2, hcid, hsyn, hit, hcas]

theorem tryBody_fail1 (env : Env) (name : String)
    (h : ∀ r : Response, env (cid_url name) = .resp r →
      (400 ≤ r.status ∧ r.status < 600) ∨ r.json = none ∨
      ∃ j e, r.json = some j ∧ extractCid j = .error e) :
    ∃ e, tryBody env name = (.error e, [cid_url name]) := by
  cases henv : env (cid_url name) with
  | exn m => exact ⟨.requestError m, by simp [tryBody, henv]⟩
  | resp r =>
    by_cases hst : 400 ≤ r.status ∧ r.status < 600
    · exact ⟨.requestError "HTTPError",
        by simp [tryBody, henv, raiseForStatus, hst]⟩
    · rcases h r henv with hbad | hnone | ⟨j, e, hsome, hex⟩
      · exact absurd hbad hst
      · exact ⟨.requestError "JSONDecodeError",
          by simp [tryBody, henv, raiseForStatus, hst, Response.jsonE, hnone]⟩
      · exact ⟨e, by simp [tryBody, henv, raiseForStatus, hst,
          Response.jsonE, hsome, hex]⟩

theorem tryBody_requests_take (env : Env) (name : String) (st1 : Nat)
    (b1 : String) (j1 cid : Json)
    (h1 : env (cid_url name) = .resp ⟨st1, b1, some j1⟩)
    (hst1 : ¬ (400 ≤ st1 ∧ st1 < 600))
    (hcid : extractCid j1 = .ok cid) :
    ∃ k, (tryBody env name).2 =
      [cid_url name, synonyms_url cid, iupac_url cid, smiles_url cid].take k := by
  simp only [tryBody, h1, raiseForStatus, Response.jsonE, hcid]
  rw [if_neg hst1]
  repeat' split
  all_goals first
  | exact ⟨1, rfl⟩
  | exact ⟨2, rfl⟩
  | exact ⟨3, rfl⟩
  | exact ⟨4, rfl⟩

theorem extractCid_first (j il c : Json) (cs : List Json)
    (hil : pyGetItemStr j "IdentifierList" = .ok il)
    (hcid : pyGetItemStr il "CID" = .ok (.arr (c :: cs))) :
    extractCid j = .ok c := by
  simp [extractCid, hil, hcid, pyGetItemNat, Except.bind]

theorem findCas_ok_cases (syns : List Json) (cas : String)
    (h : findCas syns = .ok cas) :
    cas = "Not found" ∨
      (Json.str cas ∈ syns ∧ pyIsDigit (removeHyphens cas) = true) := by
  induction syns with
  | nil =>
    simp [findCas] at h
    exact Or.inl h.symm
  | cons j rest ih =>
    cases j with
    | str s =>
      unfold findCas at h
      by_cases hp : pyIsDigit (removeHyphens s) = true
      · rw [if_pos hp] at h
        cases h
        right
        exact ⟨List.mem_cons_self _ _, hp⟩
      · rw [if_neg hp] at h
        rcases ih h with h1 | ⟨hmem, hdig⟩
        · exact Or.inl h1
        · exact Or.inr ⟨List.mem_cons_of_mem _ hmem, hdig⟩
    | num n => simp [findCas] at h
    | arr xs => simp [findCas] at h
    | obj kvs => simp [findCas] at h

theorem casShape (s : String) (h : pyIsDigit (removeHyphens s) = true) :
    (∀ c ∈ s.data, c.isDigit = true ∨ c = '-') ∧
      ∃ c ∈ s.data, c.isDigit = true := by
  unfold pyIsDigit removeHyphens at h
  rw [Bool.and_eq_true] at h
  obtain ⟨h1, h2⟩ := h
  constructor
  · intro c hc
    by_cases hd : c = '-'
    · exact Or.inr hd
    · refine Or.inl ?_
      have hmem : c ∈ s.data.filter (fun c => c ≠ '-') :=
        List.mem_filter.2 ⟨hc, by simp [hd]⟩
      exact List.all_eq_true.1 h2 c hmem
  · have hne : s.data.filter (fun c => c ≠ '-') ≠ [] := by
      simpa using h1
    obtain ⟨c, hc⟩ := List.exists_mem_of_ne_nil _ hne
    exact ⟨c, (List.mem_filter.1 hc).1, List.all_eq_true.1 h2 c hc⟩

theorem takeWhile_append_stop {p : Char → Bool} (l r : List Char) (x : Char)
    (hl : ∀ c ∈ l, p c = true) (hx : p x = false) :
    (l ++ x :: r).takeWhile p = l := by
  induction l with
  | nil => simp [List.takeWhile_cons, hx]
  | cons c cs ih =>
    simp [List.takeWhile_cons, hl c (by simp),
      ih (fun d hd => hl d (by simp [hd]))]

theorem firstField_concat (a rest : String) (ha : ∀ c ∈ a.data, c ≠ '\t') :
    firstField (a ++ "\t" ++ rest) = a := by
  unfold firstField
  have hd : (a ++ "\t" ++ rest).data = a.data ++ '\t' :: rest.data := by
    show (a.data ++ ['\t']) ++ rest.data = _
    simp
  rw [hd, takeWhile_append_stop]
  · intro c hc
    simp [ha c hc]
  · simp

theorem tabFields_three (a b c : String)
    (ha : '\t' ∉ a.data) (hb : '\t' ∉ b.data) (hc : '\t' ∉ c.data) :
    tabFields (a ++ "\t" ++ b ++ "\t" ++ c) = [a, b, c] := by
  unfold tabFields
  have hx : ∀ l ∈ [a.data, b.data, c.data], '\t' ∉ l := by
    intro l hl
    rcases List.mem_cons.1 hl with rfl | hl
    · exact ha
    rcases List.mem_cons.1 hl with rfl | hl
    · exact hb
    rcases List.mem_cons.1 hl with rfl | hl
    · exact hc
    · simp at hl
  have hd : (a ++ "\t" ++ b ++ "\t" ++ c).data =
      ['\t'].intercalate [a.data, b.data, c.data] := by
    show (((a.data ++ ['\t']) ++ b.data) ++ ['\t']) ++ c.data = _
    simp [List.intercalate]
  rw [hd, List.splitOn_intercalate [a.data, b.data, c.data] '\t' hx (by simp)]
  rfl

theorem get_compound_info_requests (env : Env) (name : String) :
    (get_compound_info env name).requests = (tryBody env name).2 := by
  unfold get_compound_info
  rcases h : tryBody env name with ⟨res, tr⟩
  cases res <;> rfl

theorem get_compound_info_of_ok (env : Env) (name s : String)
    (tr : List String) (h : tryBody env name = (.ok s, tr)) :
    get_compound_info env name = ⟨s, tr⟩ := by
  unfold get_compound_info
  rw [h]

theorem get_compound_info_of_error (env : Env) (name : String) (e : PyErr)
    (tr : List String) (h : tryBody env name = (.error e, tr)) :
    get_compound_info env name = ⟨notFoundTriple, tr⟩ := by
  unfold get_compound_info
  rw [h]

theorem findCas_no_match (syns : List String)
    (h : ∀ s ∈ syns, pyIsDigit (removeHyphens s) = false) :
    findCas (syns.map Json.str) = .ok "Not found" := by
  induction syns with
  | nil => simp [findCas]
  | cons s rest ih =>
    have hs : pyIsDigit (removeHyphens s) = false := h s (by simp)
    simp only [List.map_cons, findCas, hs]
    exact ih (fun d hd => h d (by simp [hd]))

theorem findCas_first_match (syns : List String) (i : Nat) (c : String)
    (hi : i < syns.length) (hc : syns.get ⟨i, hi⟩ = c)
    (hP : pyIsDigit (removeHyphens c) = true)
    (hprev : ∀ (j : Nat) (hj : j < i),
      pyIsDigit (removeHyphens (syns.get ⟨j, hj.trans hi⟩)) = false) :
    findCas (syns.map Json.str) = .ok c := by
  induction syns generalizing i with
  | nil => exact absurd hi (by simp)
  | cons s rest ih =>
    cases i with
    | zero =>
      obtain rfl : s = c := hc
      simp only [List.map_cons, findCas, hP, if_true]
    | succ i' =>
      have hs : pyIsDigit (removeHyphens s) = false :=
        hprev 0 (Nat.succ_pos i')
      simp only [List.map_cons, findCas, hs, Bool.false_eq_true, if_false]
      exact ih i' (Nat.lt_of_succ_lt_succ hi) hc
        (fun j hj => hprev (j + 1) (Nat.succ_lt_succ hj))

/-- C1: for every behaviour of the remote endpoints (transport error,
timeout, non-2xx status, malformed response, ...), `get_compound_info`
never raises: whenever the body of its `try:` block raises any exception,
the call returns the uniform fallback string
`Not found\tNot found\tNot found`. Totality (always returning a string)
holds by construction: `get_compound_info` is a total function into
`RunResult`. -/
theorem spec_c1_catch_all (env : Env) (compound_name : String) (e : PyErr)
    (h : (tryBody env compound_name).1 = .error e) :
    (get_compound_info env compound_name).output =
      "Not found\tNot found\tNot found" := by
  unfold get_compound_info
  rcases htb : tryBody env compound_name with ⟨res, tr⟩
  rw [htb] at h
  obtain rfl : res = .error e := h
  rfl

/-- Witness for C1 at a concrete environment where every request times out. -/
theorem spec_c1_catch_all_witness :
    (get_compound_info envTimeout "ethanol").output =
      "Not found\tNot found\tNot found" :=
  spec_c1_catch_all envTimeout "ethanol" (.requestError "Timeout") rfl

/-- C3: the registry number is the first synonym, scanning the synonym
list in order, whose content with all hyphens removed consists entirely of
digits; if no synonym satisfies this, the registry number is `Not found`. -/
theorem spec_c3_registry_number (syns : List String) :
    ((∀ s ∈ syns, pyIsDigit (removeHyphens s) = false) →
      findCas (syns.map Json.str) = .ok "Not found") ∧
    (∀ (i : Nat) (c : String) (hi : i < syns.length),
      syns.get ⟨i, hi⟩ = c →
      pyIsDigit (removeHyphens c) = true →
      (∀ (j : Nat) (hj : j < i),
        pyIsDigit (removeHyphens (syns.get ⟨j, hj.trans hi⟩)) = false) →
      findCas (syns.map Json.str) = .ok c) :=
  ⟨findCas_no_match syns, fun i c hi hc hP hprev =>
    findCas_first_match syns i c hi hc hP hprev⟩

/-- Witness for C3: on a list whose second entry is the first CAS-shaped
synonym, the scan selects it; on a list with no CAS-shaped synonym the
result is `Not found`. -/
theorem spec_c3_registry_number_witness :
    findCas (["Ethanol", "64-17-5"].map Json.str) = .ok "64-17-5" ∧
    findCas (["Ethanol", "alcohol"].map Json.str) = .ok "Not found" :=
  ⟨(spec_c3_registry_number ["Ethanol", "64-17-5"]).2 1 "64-17-5"
      (by decide) (by decide) (by decide)
      (fun j hj => by
        have hj0 : j = 0 := by omega
        subst hj0
        show pyIsDigit (removeHyphens "Ethanol") = false
        decide),
   (spec_c3_registry_number ["Ethanol", "alcohol"]).1 (by decide)⟩

/-- C7: invoked with no command-line argument beyond the script name, the
program prints the usage message to standard output, exits with code 1,
and issues no network requests. -/
theorem spec_c7_usage (env : Env) (prog : String) :
    mainRun env [prog] =
      ⟨["Usage: python get_compound_info2.py <compound_name>"], 1, []⟩ :=
  rfl

/-- C8: under every endpoint behaviour, the URL of the first request is
exactly the fixed base URL followed by `/compound/name/`, the compound
name verbatim (no stripping, case folding, or escaping), and `/cids/JSON`. -/
theorem spec_c8_first_request_url (env : Env) (compound_name : String) :
    (get_compound_info env compound_name).requests.head? =
      some ("https://pubchem.ncbi.nlm.nih.gov/rest/pug" ++ "/compound/name/"
        ++ compound_name ++ "/cids/JSON") := by
  rw [get_compound_info_requests]
  obtain ⟨rest, hr⟩ := tryBody_snd_head env compound_name
  rw [hr]
  rfl

/-- C4: the compound identifier used for steps 2 through 4 is the first
entry of the identifier list returned by endpoint 1 (every request after
the first targets that identifier); and whenever endpoint 1 raises, has an
error status, or its response cannot be parsed into an identifier list,
`get_compound_info` returns exactly `Not found\tNot found\tNot found`
after issuing only that one request. -/
theorem spec_c4_identifier_and_abort (env : Env) (compound_name : String) :
    ((∀ r : Response, env (cid_url compound_name) = .resp r →
        (400 ≤ r.status ∧ r.status < 600) ∨ r.json = none ∨
        ∃ j e, r.json = some j ∧ extractCid j = .error e) →
      get_compound_info env compound_name =
        ⟨"Not found\tNot found\tNot found", [cid_url compound_name]⟩) ∧
    (∀ (st1 : Nat) (b1 : String) (j1 il c : Json) (cs : List Json),
      env (cid_url compound_name) = .resp ⟨st1, b1, some j1⟩ →
      ¬ (400 ≤ st1 ∧ st1 < 600) →
      pyGetItemStr j1 "IdentifierList" = .ok il →
      pyGetItemStr il "CID" = .ok (.arr (c :: cs)) →
      ∃ k, (get_compound_info env compound_name).requests =
        [cid_url compound_name, synonyms_url c, iupac_url c,
         smiles_url c].take k) := by
  constructor
  · intro h
    obtain ⟨e, htb⟩ := tryBody_fail1 env compound_name h
    exact get_compound_info_of_error env compound_name e _ htb
  · intro st1 b1 j1 il c cs h1 hst1 hil hcid
    have hcid' := extractCid_first j1 il c cs hil hcid
    obtain ⟨k, hk⟩ :=
      tryBody_requests_take env compound_name st1 b1 j1 c h1 hst1 hcid'
    rw [get_compound_info_requests]
    exact ⟨k, hk⟩

/-- Witness for C4: endpoint 1 delivering an unparseable body aborts with
the fallback triple and a single issued request; on a fully successful
environment every issued request targets the first returned identifier. -/
theorem spec_c4_identifier_and_abort_witness :
    get_compound_info envBadJson1 "ethanol" =
      ⟨"Not found\tNot found\tNot found", [cid_url "ethanol"]⟩ ∧
    ∃ k, (get_compound_info envGood "ethanol").requests =
      [cid_url "ethanol", synonyms_url (.num 702), iupac_url (.num 702),
       smiles_url (.num 702)].take k :=
  ⟨(spec_c4_identifier_and_abort envBadJson1 "ethanol").1 (fun r hr => by
      have hx : envBadJson1 (cid_url "ethanol") =
          .resp ⟨200, "<html>busy</html>", none⟩ := rfl
      rw [hx] at hr
      cases hr
      exact Or.inr (Or.inl rfl)),
   (spec_c4_identifier_and_abort envGood "ethanol").2 200 "" cidJson
     (.obj [("CID", .arr [.num 702])]) (.num 702) [] rfl (by decide)
     rfl rfl⟩

/-- C5: when endpoints 1 and 2 succeed but no synonym matches the
digits-and-hyphens pattern, the registry-number field is `Not found` while
steps 3 and 4 are still performed, and the other two fields carry the
stripped bodies of endpoints 3 and 4. -/
theorem spec_c5_no_match_no_short_circuit (env : Env) (name : String)
    (st1 st2 : Nat) (b1 b2 : String) (j1 j2 cid synJson : Json)
    (syns : List String) (r3 r4 : Response)
    (h1 : env (cid_url name) = .resp ⟨st1, b1, some j1⟩)
    (hst1 : ¬ (400 ≤ st1 ∧ st1 < 600))
    (hcid : extractCid j1 = .ok cid)
    (h2 : env (synonyms_url cid) = .resp ⟨st2, b2, some j2⟩)
    (hst2 : ¬ (400 ≤ st2 ∧ st2 < 600))
    (hsyn : extractSynonyms j2 = .ok synJson)
    (hit : pyIter synJson = .ok (syns.map Json.str))
    (hnomatch : ∀ s ∈ syns, pyIsDigit (removeHyphens s) = false)
    (h3 : env (iupac_url cid) = .resp r3)
    (hst3 : 200 ≤ r3.status ∧ r3.status < 300)
    (h4 : env (smiles_url cid) = .resp r4)
    (hst4 : 200 ≤ r4.status ∧ r4.status < 300) :
    get_compound_info env name =
      ⟨"Not found" ++ "\t" ++ pyStrip r3.text ++ "\t" ++ pyStrip r4.text,
       [cid_url name, synonyms_url cid, iupac_url cid, smiles_url cid]⟩ := by
  have hcas := findCas_no_match syns hnomatch
  have htb := tryBody_success env name st1 st2 b1 b2 j1 j2 cid synJson
    (syns.map Json.str) "Not found" r3 r4 h1 hst1 hcid h2 hst2 hsyn hit
    hcas h3 h4
  exact get_compound_info_of_ok env name _ _ htb

/-- Witness for C5 at a concrete environment whose synonym list has no
digits-and-hyphens entry. -/
theorem spec_c5_no_match_no_short_circuit_witness :
    get_compound_info envNoCas "ethanol" =
      ⟨"Not found" ++ "\t" ++ pyStrip "ethanol\n" ++ "\t" ++ pyStrip "CCO\n",
       [cid_url "ethanol", synonyms_url (.num 702), iupac_url (.num 702),
        smiles_url (.num 702)]⟩ :=
  spec_c5_no_match_no_short_circuit envNoCas "ethanol" 200 200 "" ""
    cidJson synJsonNoCas (.num 702) (.arr [.str "Ethanol", .str "alcohol"])
    ["Ethanol", "alcohol"] ⟨200, "ethanol\n", none⟩ ⟨200, "CCO\n", none⟩
    rfl (by decide) rfl rfl (by decide) rfl rfl (by decide)
    rfl (by decide) rfl (by decide)

/-- Counterexample to C2 as stated: endpoints 1 and 2 succeed, endpoint 3
completes with HTTP status 404 (its status is never checked, so nothing
raises), endpoint 4 succeeds; the call returns the 404 error body as the
standard-name field instead of the all-`Not found` triple. -/
theorem spec_c2_counterexample :
    (get_compound_info envStatus404on3 "ethanol").output =
      "64-17-5\tPUGREST.NotFound\tCCO" ∧
    (get_compound_info envStatus404on3 "ethanol").output ≠
      "Not found\tNot found\tNot found" := by
  constructor
  · decide
  · decide

/-- C2 (amended): a failure that raises on endpoint 3 or endpoint 4 — a
network failure or timeout, but not a mere non-2xx status, which is not
checked there — occurring after endpoints 1 and 2 succeeded, discards the
previously obtained registry number and yields the full fallback triple
with no partial leakage. -/
theorem spec_c2_transport_failure_discards (env : Env) (name : String)
    (st1 st2 : Nat) (b1 b2 : String) (j1 j2 cid synJson : Json)
    (syns : List Json) (cas m : String)
    (h1 : env (cid_url name) = .resp ⟨st1, b1, some j1⟩)
    (hst1 : ¬ (400 ≤ st1 ∧ st1 < 600))
    (hcid : extractCid j1 = .ok cid)
    (h2 : env (synonyms_url cid) = .resp ⟨st2, b2, some j2⟩)
    (hst2 : ¬ (400 ≤ st2 ∧ st2 < 600))
    (hsyn : extractSynonyms j2 = .ok synJson)
    (hit : pyIter synJson = .ok syns)
    (hcas : findCas syns = .ok cas)
    (h34 : env (iupac_url cid) = .exn m ∨
      (∃ r3 : Response, env (iupac_url cid) = .resp r3 ∧
        env (smiles_url cid) = .exn m)) :
    (get_compound_info env name).output =
      "Not found\tNot found\tNot found" := by
  have herr := tryBody_exn34 env name st1 st2 b1 b2 j1 j2 cid synJson syns
    cas m h1 hst1 hcid h2 hst2 hsyn hit hcas h34
  rcases htb : tryBody env name with ⟨res, tr⟩
  rw [htb] at herr
  obtain rfl : res = .error (.requestError m) := herr
  rw [get_compound_info_of_error env name _ _ htb]
  rfl

/-- Witness for amended C2: endpoints 1 and 2 succeed and the request to
endpoint 3 raises a connection error; the whole result is the fallback. -/
theorem spec_c2_transport_failure_discards_witness :
    (get_compound_info envTimeoutOn3 "ethanol").output =
      "Not found\tNot found\tNot found" :=
  spec_c2_transport_failure_discards envTimeoutOn3 "ethanol" 200 200 "" ""
    cidJson synJsonCas (.num 702) (.arr [.str "Ethanol", .str "64-17-5"])
    [.str "Ethanol", .str "64-17-5"] "64-17-5" "ConnectionError"
    rfl (by decide) rfl rfl (by decide) rfl rfl rfl (Or.inl rfl)

/-- Counterexample to C10 as stated: endpoints 1 and 2 succeed, the
requests to endpoints 3 and 4 complete without raising, yet the returned
string can coincide with the fallback triple — here no synonym matches and
both plain-text bodies are literally `Not found`. -/
theorem spec_c10_counterexample :
    (tryBody envNotFoundBodies "ethanol").1.isOk = true ∧
    (get_compound_info envNotFoundBodies "ethanol").output =
      "Not found\tNot found\tNot found" := by
  constructor
  · decide
  · decide

/-- C10 (amended): whenever endpoints 1 and 2 succeed and the requests to
endpoints 3 and 4 complete without raising — any HTTP status, since no
status check is performed on them — the first field is the registry number
selected from the synonyms and the second and third fields are the
stripped response bodies of endpoints 3 and 4; the fallback branch is not
taken, though the result may textually coincide with the fallback triple
when those fields themselves read `Not found`. -/
theorem spec_c10_fields_from_bodies (env : Env) (name : String)
    (st1 st2 : Nat) (b1 b2 : String) (j1 j2 cid synJson : Json)
    (syns : List Json) (cas : String) (r3 r4 : Response)
    (h1 : env (cid_url name) = .resp ⟨st1, b1, some j1⟩)
    (hst1 : ¬ (400 ≤ st1 ∧ st1 < 600))
    (hcid : extractCid j1 = .ok cid)
    (h2 : env (synonyms_url cid) = .resp ⟨st2, b2, some j2⟩)
    (hst2 : ¬ (400 ≤ st2 ∧ st2 < 600))
    (hsyn : extractSynonyms j2 = .ok synJson)
    (hit : pyIter synJson = .ok syns)
    (hcas : findCas syns = .ok cas)
    (h3 : env (iupac_url cid) = .resp r3)
    (h4 : env (smiles_url cid) = .resp r4) :
    get_compound_info env name =
      ⟨cas ++ "\t" ++ pyStrip r3.text ++ "\t" ++ pyStrip r4.text,
       [cid_url name, synonyms_url cid, iupac_url cid, smiles_url cid]⟩ :=
  get_compound_info_of_ok env name _ _
    (tryBody_success env name st1 st2 b1 b2 j1 j2 cid synJson syns cas
      r3 r4 h1 hst1 hcid h2 hst2 hsyn hit hcas h3 h4)

/-- Witness for amended C10: endpoint 3 completes with a 404 status and an
error body; that body still becomes the second field. -/
theorem spec_c10_fields_from_bodies_witness :
    get_compound_info envStatus404on3 "ethanol" =
      ⟨"64-17-5" ++ "\t" ++ pyStrip "PUGREST.NotFound" ++ "\t"
        ++ pyStrip "CCO\n",
       [cid_url "ethanol", synonyms_url (.num 702), iupac_url (.num 702),
        smiles_url (.num 702)]⟩ :=
  spec_c10_fields_from_bodies envStatus404on3 "ethanol" 200 200 "" ""
    cidJson synJsonCas (.num 702) (.arr [.str "Ethanol", .str "64-17-5"])
    [.str "Ethanol", .str "64-17-5"] "64-17-5"
    ⟨404, "PUGREST.NotFound", none⟩ ⟨200, "CCO\n", none⟩
    rfl (by decide) rfl rfl (by decide) rfl rfl rfl rfl rfl

theorem firstField_of_triple (a b c : String)
    (ha : ∀ ch ∈ a.data, ch ≠ '\t') :
    firstField (a ++ "\t" ++ b ++ "\t" ++ c) = a := by
  have h2 : a ++ "\t" ++ b ++ "\t" ++ c = a ++ "\t" ++ (b ++ "\t" ++ c) := by
    simp [String.append_assoc]
  rw [h2, firstField_concat a _ ha]

theorem cas_ok_clean (syns : List Json) (cas : String)
    (h : findCas syns = .ok cas) :
    cas ≠ "" ∧ (∀ ch ∈ cas.data, ch ≠ '\t') ∧
      (∀ ch ∈ cas.data, ch ≠ '\n') := by
  rcases findCas_ok_cases syns cas h with rfl | ⟨hmem, hdig⟩
  · exact ⟨by decide, by decide, by decide⟩
  · obtain ⟨hall, hex⟩ := casShape cas hdig
    have hne : cas ≠ "" := by
      obtain ⟨c, hc, _⟩ := hex
      intro he
      rw [he] at hc
      exact List.not_mem_nil c hc
    refine ⟨hne, ?_, ?_⟩
    · intro ch hch
      rcases hall ch hch with hd | rfl
      · intro he
        rw [he] at hd
        exact absurd hd (by decide)
      · decide
    · intro ch hch
      rcases hall ch hch with hd | rfl
      · intro he
        rw [he] at hd
        exact absurd hd (by decide)
      · decide

/-- C9: whenever the first tab-separated field of the returned string is
not `Not found`, it consists only of digit characters and hyphens and
contains at least one digit (an empty synonym or one made entirely of
hyphens never matches). -/
theorem spec_c9_registry_field_shape (env : Env) (name : String)
    (h : firstField (get_compound_info env name).output ≠ "Not found") :
    (∀ c ∈ (firstField (get_compound_info env name).output).data,
      c.isDigit = true ∨ c = '-') ∧
    ∃ c ∈ (firstField (get_compound_info env name).output).data,
      c.isDigit = true := by
  rcases tryBody_shape env name with ⟨e, tr, htb⟩ |
    ⟨syns, cas, r3, r4, tr, hfind, htb⟩
  · have hout : (get_compound_info env name).output = notFoundTriple := by
      rw [get_compound_info_of_error env name e tr htb]
    rw [hout] at h
    exact absurd (by decide : firstField notFoundTriple = "Not found") h
  · have hout : (get_compound_info env name).output =
        cas ++ "\t" ++ pyStrip r3.text ++ "\t" ++ pyStrip r4.text := by
      rw [get_compound_info_of_ok env name _ tr htb]
    rw [hout] at h ⊢
    rcases findCas_ok_cases syns cas hfind with rfl | ⟨hmem, hdig⟩
    · exact absurd (firstField_of_triple _ _ _ (by decide)) h
    · obtain ⟨hall, hex⟩ := casShape cas hdig
      have hnotab : ∀ ch ∈ cas.data, ch ≠ '\t' :=
        (cas_ok_clean syns cas hfind).2.1
      rw [firstField_of_triple _ _ _ hnotab]
      exact ⟨hall, hex⟩

/-- Witness for C9 at a fully successful concrete environment: the first
field is `64-17-5`, all digits and hyphens with at least one digit. -/
theorem spec_c9_registry_field_shape_witness :
    (∀ c ∈ (firstField (get_compound_info envGood "ethanol").output).data,
      c.isDigit = true ∨ c = '-') ∧
    ∃ c ∈ (firstField (get_compound_info envGood "ethanol").output).data,
      c.isDigit = true :=
  spec_c9_registry_field_shape envGood "ethanol" (by decide)

/-- Counterexample to C6 as stated: with all four endpoints succeeding
(2xx), a whitespace-only endpoint-3 body makes the middle field empty, and
an endpoint-3 body with interior tab and newline characters makes the
printed string have four tab-separated fields and span two lines. -/
theorem spec_c6_counterexample :
    (mainRun envEmptyBody3 ["get_compound_info2.py", "ethanol"]).stdout =
      ["64-17-5\t\tCCO"] ∧
    tabFields "64-17-5\t\tCCO" = ["64-17-5", "", "CCO"] ∧
    (mainRun envTabBody3 ["get_compound_info2.py", "ethanol"]).stdout =
      ["64-17-5\tX\tY\nZ\tCCO"] ∧
    (tabFields "64-17-5\tX\tY\nZ\tCCO").length = 4 ∧
    '\n' ∈ "64-17-5\tX\tY\nZ\tCCO".data := by
  exact ⟨by decide, by decide, by decide, by decide, by decide⟩

/-- C6 (amended): with a command-line argument present the exit code is
always 0 (even when all fields are `Not found`); and when the name
resolves, all four endpoints succeed with 2xx statuses, and the stripped
bodies of endpoints 3 and 4 are non-empty and free of tab and newline
characters, the program prints exactly one line consisting of three
non-empty tab-delimited fields in order: registry number, standard name,
structure notation. -/
theorem spec_c6_output_format (env : Env) (prog name : String)
    (args : List String) :
    (mainRun env (prog :: name :: args)).exitCode = 0 ∧
    (∀ (st1 st2 : Nat) (b1 b2 : String) (j1 j2 cid synJson : Json)
      (syns : List Json) (cas : String) (r3 r4 : Response),
      env (cid_url name) = .resp ⟨st1, b1, some j1⟩ →
      ¬ (400 ≤ st1 ∧ st1 < 600) →
      extractCid j1 = .ok cid →
      env (synonyms_url cid) = .resp ⟨st2, b2, some j2⟩ →
      ¬ (400 ≤ st2 ∧ st2 < 600) →
      extractSynonyms j2 = .ok synJson →
      pyIter synJson = .ok syns →
      findCas syns = .ok cas →
      env (iupac_url cid) = .resp r3 →
      200 ≤ r3.status ∧ r3.status < 300 →
      env (smiles_url cid) = .resp r4 →
      200 ≤ r4.status ∧ r4.status < 300 →
      pyStrip r3.text ≠ "" →
      pyStrip r4.text ≠ "" →
      (∀ ch ∈ (pyStrip r3.text).data, ch ≠ '\t' ∧ ch ≠ '\n') →
      (∀ ch ∈ (pyStrip r4.text).data, ch ≠ '\t' ∧ ch ≠ '\n') →
      (mainRun env (prog :: name :: args)).stdout =
        [cas ++ "\t" ++ pyStrip r3.text ++ "\t" ++ pyStrip r4.text] ∧
      tabFields (cas ++ "\t" ++ pyStrip r3.text ++ "\t" ++ pyStrip r4.text) =
        [cas, pyStrip r3.text, pyStrip r4.text] ∧
      cas ≠ "" ∧
      (∀ ch ∈ (cas ++ "\t" ++ pyStrip r3.text ++ "\t"
        ++ pyStrip r4.text).data, ch ≠ '\n')) := by
  constructor
  · rfl
  · intro st1 st2 b1 b2 j1 j2 cid synJson syns cas r3 r4 h1 hst1 hcid h2
      hst2 hsyn hit hcas h3 hst3 h4 hst4 hne3 hne4 hcl3 hcl4
    have htb := tryBody_success env name st1 st2 b1 b2 j1 j2 cid synJson
      syns cas r3 r4 h1 hst1 hcid h2 hst2 hsyn hit hcas h3 h4
    have hrun := get_compound_info_of_ok env name _ _ htb
    obtain ⟨hcasne, hcastab, hcasnl⟩ := cas_ok_clean syns cas hcas
    refine ⟨?_, ?_, hcasne, ?_⟩
    · show [(get_compound_info env name).output] = _
      rw [hrun]
    · exact tabFields_three cas (pyStrip r3.text) (pyStrip r4.text)
        (fun hmem => hcastab '\t' hmem rfl)
        (fun hmem => (hcl3 '\t' hmem).1 rfl)
        (fun hmem => (hcl4 '\t' hmem).1 rfl)
    · intro ch hch
      have hdata : (cas ++ "\t" ++ pyStrip r3.text ++ "\t"
          ++ pyStrip r4.text).data =
          (((cas.data ++ ['\t']) ++ (pyStrip r3.text).data) ++ ['\t'])
            ++ (pyStrip r4.text).data := rfl
      rw [hdata] at hch
      simp only [List.mem_append, List.mem_singleton] at hch
      rcases hch with (((hc | rfl) | hc) | rfl) | hc
      · exact hcasnl ch hc
      · decide
      · exact (hcl3 ch hc).2
      · decide
      · exact (hcl4 ch hc).2

/-- Witness for amended C6 at a fully successful concrete environment. -/
theorem spec_c6_output_format_witness :
    (mainRun envGood ["get_compound_info2.py", "ethanol"]).exitCode = 0 ∧
    ((mainRun envGood ["get_compound_info2.py", "ethanol"]).stdout =
      ["64-17-5" ++ "\t" ++ pyStrip "ethanol\n" ++ "\t" ++ pyStrip "CCO\n"] ∧
     tabFields ("64-17-5" ++ "\t" ++ pyStrip "ethanol\n" ++ "\t"
       ++ pyStrip "CCO\n") = ["64-17-5", pyStrip "ethanol\n",
         pyStrip "CCO\n"] ∧
     ("64-17-5" : String) ≠ "" ∧
     (∀ ch ∈ ("64-17-5" ++ "\t" ++ pyStrip "ethanol\n" ++ "\t"
       ++ pyStrip "CCO\n").data, ch ≠ '\n')) :=
  ⟨(spec_c6_output_format envGood "get_compound_info2.py" "ethanol" []).1,
   (spec_c6_output_format envGood "get_compound_info2.py" "ethanol" []).2
     200 200 "" "" cidJson synJsonCas (.num 702)
     (.arr [.str "Ethanol", .str "64-17-5"])
     [.str "Ethanol", .str "64-17-5"] "64-17-5"
     ⟨200, "ethanol\n", none⟩ ⟨200, "CCO\n", none⟩
     rfl (by decide) rfl rfl (by decide) rfl rfl rfl rfl (by decide) rfl
     (by decide) (by decide) (by decide) (by decide) (by decide)⟩
